import Mathlib

/-!
Verification of the sagemaker-101-workshop notebooks and training script.

The repository is a set of educational notebooks (scikit-learn random forest on
Boston housing, a TF.Keras MNIST CNN, and PyTorch/Keras news-headline
classifiers) plus one generated training script.  This file gives a shallow
embedding of the code paths the specification talks about and proves (or
refutes) the spec's statements about them:

* the MNIST data-reduction cell (`files[::reduction_factor]` plus a deletion
  loop over a symmetric set difference);
* the MNIST CNN channel-expansion cell (`K.image_data_format()` branch);
* the `train_test_split` calls of the tabular and NLP notebooks;
* the sklearn training script's `__main__` block (argument parsing with
  `parse_known_args`, CSV loading, fitting, the percentile metric lines and
  `joblib.dump`) and its `model_fn`;
* the news-headline `classify` helpers (Keras `pad_sequences`, torchtext
  tokenizer) and the embedding-matrix/model shape relationship.

Machine floats are modelled by `ℚ`; fallible Python calls by `Except`.
-/

namespace SM101

/-! ## A model of numpy nested arrays

`np.expand_dims` in the MNIST notebook is applied to arrays of different ranks
(the batch of 28×28 images before and after expansion), so we model numpy
values as rank-heterogeneous nested arrays of rationals. -/

/-- A numpy value: either a scalar or an array of sub-values. -/
inductive NpArr where
  | scalar : ℚ → NpArr
  | arr : List NpArr → NpArr

/-- `len(x.shape)`: the nesting depth of a numpy value along its first spine
(the notebook's arrays are rectangular, so the first spine determines the
rank). -/
def NpArr.ndim : NpArr → Nat
  | .scalar _ => 0
  | .arr [] => 1
  | .arr (t :: _) => 1 + NpArr.ndim t

/-- `np.expand_dims(x, axis)`: insert a length-one dimension at `axis`
(axis first so that the recursion is structural on it). -/
def NpArr.expandDims : Nat → NpArr → NpArr
  | 0, t => .arr [t]
  | _ + 1, .scalar q => .scalar q
  | n + 1, .arr ts => .arr (ts.map (NpArr.expandDims n))

/-! ## MNIST local notebook: channel-expansion cell

From the "Pre-Process the Data for our CNN" cell of the local MNIST notebook:

    if K.image_data_format() == "channels_first":
        x_train = np.expand_dims(x_train, 1)
        x_test = np.expand_dims(x_train, 1)
    else:
        x_train = np.expand_dims(x_train, len(x_train.shape))
        x_test = np.expand_dims(x_test, len(x_test.shape))

Note the first branch reads the (just reassigned) `x_train` when computing
`x_test`. -/

/-- The `x_train`/`x_test` pair manipulated by the preprocessing cell. -/
structure MnistXState where
  x_train : NpArr
  x_test : NpArr

/-- The channel-expansion cell of the local MNIST notebook, as written:
sequential reassignment of `x_train` then `x_test`, branching on
`K.image_data_format()`. -/
def imageDataFormatCell (image_data_format : String) (s : MnistXState) : MnistXState :=
  if image_data_format = "channels_first" then
    let x_train := NpArr.expandDims 1 s.x_train
    let x_test := NpArr.expandDims 1 x_train
    { x_train := x_train, x_test := x_test }
  else
    let x_train := NpArr.expandDims s.x_train.ndim s.x_train
    let x_test := NpArr.expandDims s.x_test.ndim s.x_test
    { x_train := x_train, x_test := x_test }

/-! ## MNIST data reduction: `files[::reduction_factor]` and the deletion loop

From the "Prepare the Data" cells (both MNIST notebooks):

    reduction_factor = 2
    train_files_to_keep = train_files[::reduction_factor]
    ...
    for fname in (set(train_files) ^ set(train_files_to_keep)):
        os.remove(fname)
-/

/-- Helper for Python extended slicing `xs[::k]`: `c` counts positions until
the next kept element (`c = 0` keeps). -/
def pySliceStepAux (k : Nat) : Nat → List String → List String
  | _, [] => []
  | 0, x :: rest => x :: pySliceStepAux k (k - 1) rest
  | c + 1, _ :: rest => pySliceStepAux k c rest

/-- Python `xs[::k]` for a positive step `k`: every `k`-th element starting at
index 0. -/
def pySliceStep (k : Nat) (xs : List String) : List String :=
  pySliceStepAux k 0 xs

/-- `reduction_factor = 2` from the data-preparation cell. -/
def reduction_factor : Nat := 2

/-- `train_files[::reduction_factor]` / `test_files[::reduction_factor]`. -/
def filesToKeep (files : List String) : List String :=
  pySliceStep reduction_factor files

/-- Python `set(a) ^ set(b)` (symmetric difference), as a list with set
membership semantics. -/
def pySymDiff (a b : List String) : List String :=
  a.filter (fun x => decide (x ∉ b)) ++ b.filter (fun x => decide (x ∉ a))

/-- The files (among those listed) still on disk after the deletion loop
removes every member of `set(files) ^ set(kept)`. -/
def filesAfterDeletion (files kept : List String) : List String :=
  files.filter (fun f => decide (f ∉ pySymDiff files kept))

/-! ### Lemmas about the reduction loop -/

theorem pySliceStepAux_sublist (k : Nat) :
    ∀ (xs : List String) (c : Nat), List.Sublist (pySliceStepAux k c xs) xs := by
  intro xs
  induction xs with
  | nil => intro c; cases c <;> simp [pySliceStepAux]
  | cons x rest ih =>
    intro c
    cases c with
    | zero =>
      simpa [pySliceStepAux] using List.Sublist.cons₂ x (ih (k - 1))
    | succ c =>
      exact List.Sublist.cons x (ih c)

theorem filesToKeep_sublist (files : List String) :
    List.Sublist (filesToKeep files) files :=
  pySliceStepAux_sublist reduction_factor files 0

theorem mem_pySymDiff {x : String} {a b : List String} :
    x ∈ pySymDiff a b ↔ (x ∈ a ∧ x ∉ b) ∨ (x ∈ b ∧ x ∉ a) := by
  simp [pySymDiff, List.mem_filter]

/-- On a duplicate-free list, filtering by membership in a sublist recovers
exactly that sublist. -/
theorem filter_mem_sublist {l' l : List String} (hs : List.Sublist l' l)
    (hn : l.Nodup) :
    l.filter (fun x => decide (x ∈ l')) = l' := by
  induction hs with
  | slnil => simp
  | @cons l₁ l₂ a hs ih =>
    have hnl : l₂.Nodup := hn.of_cons
    have ha : a ∉ l₂ := (List.nodup_cons.mp hn).1
    have ha' : a ∉ l₁ := fun h => ha (hs.mem h)
    simpa [List.filter_cons, ha'] using ih hnl
  | @cons₂ l₁ l₂ a hs ih =>
    have hnl : l₂.Nodup := hn.of_cons
    have ha : a ∉ l₂ := (List.nodup_cons.mp hn).1
    have hstep : l₂.filter (fun x => decide (x = a) || decide (x ∈ l₁)) =
        l₂.filter (fun x => decide (x ∈ l₁)) := by
      apply List.filter_congr
      intro x hx
      have hxa : x ≠ a := fun h => ha (h ▸ hx)
      simp [hxa]
    simp only [List.filter_cons, List.mem_cons, decide_eq_true_eq]
    rw [if_pos (Or.inl trivial)]
    have hrest : l₂.filter (fun x => decide (x = a ∨ x ∈ l₁)) =
        l₂.filter (fun x => decide (x ∈ l₁)) := by
      apply List.filter_congr
      intro x hx
      have hxa : x ≠ a := fun h => ha (h ▸ hx)
      simp [hxa]
    rw [hrest, ih hnl]

theorem pySliceStepAux_two_length :
    ∀ (xs : List String),
      (pySliceStepAux 2 0 xs).length = (xs.length + 1) / 2 ∧
      (pySliceStepAux 2 1 xs).length = xs.length / 2 := by
  intro xs
  induction xs with
  | nil => simp [pySliceStepAux]
  | cons x rest ih =>
    obtain ⟨ih0, ih1⟩ := ih
    constructor
    · have h1 : pySliceStepAux 2 0 (x :: rest) = x :: pySliceStepAux 2 1 rest := rfl
      rw [h1, List.length_cons, ih1, List.length_cons]
      omega
    · have h2 : pySliceStepAux 2 1 (x :: rest) = pySliceStepAux 2 0 rest := rfl
      rw [h2, ih0, List.length_cons]

/-- **C8.** For every duplicate-free sorted file list and
`reduction_factor = 2`, the files remaining after the deletion loop are
exactly `files[::reduction_factor]`: since the kept files are a subset of the
listed files, the symmetric difference `set(files) ^ set(kept)` is the plain
set difference, so exactly the non-kept files are removed and `⌈n/2⌉` files
remain. -/
theorem C8_reduction_loop_keeps_every_second (files : List String)
    (h : files.Nodup) :
    filesAfterDeletion files (filesToKeep files) = filesToKeep files ∧
    (filesToKeep files).length = (files.length + 1) / 2 := by
  constructor
  · have hsub : List.Sublist (filesToKeep files) files := filesToKeep_sublist files
    have hstep : filesAfterDeletion files (filesToKeep files) =
        files.filter (fun f => decide (f ∈ filesToKeep files)) := by
      apply List.filter_congr
      intro x hx
      have : x ∉ pySymDiff files (filesToKeep files) ↔ x ∈ filesToKeep files := by
        rw [mem_pySymDiff]
        constructor
        · intro hnot
          by_contra hmem
          exact hnot (Or.inl ⟨hx, hmem⟩)
        · intro hmem hcontra
          rcases hcontra with ⟨_, hnk⟩ | ⟨_, hnf⟩
          · exact hnk hmem
          · exact hnf hx
      simp [filesAfterDeletion, this]
    rw [hstep]
    exact filter_mem_sublist hsub h
  · exact (pySliceStepAux_two_length files).1

/-- Witness for C8 at a concrete five-element listing. -/
theorem C8_reduction_loop_keeps_every_second_witness :
    filesAfterDeletion ["a", "b", "c", "d", "e"]
        (filesToKeep ["a", "b", "c", "d", "e"]) = ["a", "c", "e"] ∧
    (filesToKeep ["a", "b", "c", "d", "e"]).length = 3 := by
  have h := C8_reduction_loop_keeps_every_second ["a", "b", "c", "d", "e"]
    (by decide)
  constructor
  · rw [h.1]; decide
  · rw [h.2]; decide

/-- **C1.** The claim states that for both settings of
`K.image_data_format()` the channel-expanded `x_test` stays aligned with the
loaded test images and is never derived from `x_train`.  The code violates
this in the `channels_first` branch: with a one-image training set `A` and a
one-image test set `B`, the cell leaves `x_test` equal to the doubly-expanded
training array and not to the channel-expanded test array. -/
theorem C1_channels_first_xtest_derived_from_xtrain :
    (imageDataFormatCell "channels_first"
        { x_train := NpArr.arr [NpArr.arr [NpArr.arr [NpArr.scalar 1]]],
          x_test := NpArr.arr [NpArr.arr [NpArr.arr [NpArr.scalar 2]]] }).x_test =
      NpArr.expandDims 1
        (NpArr.expandDims 1 (NpArr.arr [NpArr.arr [NpArr.arr [NpArr.scalar 1]]])) ∧
    (imageDataFormatCell "channels_first"
        { x_train := NpArr.arr [NpArr.arr [NpArr.arr [NpArr.scalar 1]]],
          x_test := NpArr.arr [NpArr.arr [NpArr.arr [NpArr.scalar 2]]] }).x_test ≠
      NpArr.expandDims 1 (NpArr.arr [NpArr.arr [NpArr.arr [NpArr.scalar 2]]]) := by
  constructor
  · rfl
  · intro hcontra
    have hnd := congrArg NpArr.ndim hcontra
    simp only [imageDataFormatCell, NpArr.expandDims, NpArr.ndim,
      List.map_cons, List.map_nil, reduceIte] at hnd
    omega

/-! ## `sklearn.model_selection.train_test_split`

Both the Boston housing notebook
(`train_test_split(data.data, data.target, test_size=0.25, random_state=42)`)
and the AG News notebooks
(`train_test_split(processed_docs, encoded_y, test_size=0.2, random_state=42)`)
call the library splitter.  sklearn draws a shuffled permutation of the row
indices, takes the first `n_test = ceil(n_samples * test_size)` indices as the
test part and the remaining `n_samples - n_test` as the train part, and
applies the same index selection to every passed array. -/

/-- `ceil(n * num/den)`: the number of test rows for `test_size = num/den`. -/
def nTestCeil (n num den : Nat) : Nat := (n * num + den - 1) / den

/-- `train_test_split(xs, ys, ...)` given the shuffled index permutation
`perm` drawn from the seeded RNG: returns
`(X_train, X_test, y_train, y_test)`. -/
def trainTestSplit {α β : Type} (xs : List α) (ys : List β) (perm : List Nat)
    (nTest : Nat) : List α × List α × List β × List β :=
  let testIdx := perm.take nTest
  let trainIdx := perm.drop nTest
  (trainIdx.filterMap (fun i => xs[i]?),
   testIdx.filterMap (fun i => xs[i]?),
   trainIdx.filterMap (fun i => ys[i]?),
   testIdx.filterMap (fun i => ys[i]?))

/-- The Boston housing call: `test_size=0.25`. -/
def bostonHousingSplit (dataX : List (List ℚ)) (dataY : List ℚ)
    (perm : List Nat) : List (List ℚ) × List (List ℚ) × List ℚ × List ℚ :=
  trainTestSplit dataX dataY perm (nTestCeil dataX.length 1 4)

/-- The AG News call: `test_size=0.2` on the padded documents and the
one-hot-encoded labels. -/
def agNewsSplit (docs : List (List Nat)) (encodedY : List (List ℚ))
    (perm : List Nat) :
    List (List Nat) × List (List Nat) × List (List ℚ) × List (List ℚ) :=
  trainTestSplit docs encodedY perm (nTestCeil docs.length 1 5)

/-- Selecting rows by a list of in-bounds indices yields one row per index. -/
theorem length_filterMap_getElem {α : Type} (xs : List α) :
    ∀ (l : List Nat), (∀ i ∈ l, i < xs.length) →
      (l.filterMap (fun i => xs[i]?)).length = l.length := by
  intro l
  induction l with
  | nil => simp
  | cons i t ih =>
    intro h
    have hi : i < xs.length := h i (List.mem_cons_self i t)
    have hsome : xs[i]? = some xs[i] := List.getElem?_eq_getElem hi
    simp [List.filterMap_cons, hsome,
      ih (fun j hj => h j (List.mem_cons_of_mem _ hj))]

/-- Row-count preservation for a single `train_test_split` call, for any
test-row count. -/
theorem trainTestSplit_counts {α β : Type} (xs : List α) (ys : List β)
    (perm : List Nat) (nTest : Nat)
    (hperm : perm.Perm (List.range xs.length))
    (hlen : ys.length = xs.length) :
    ((trainTestSplit xs ys perm nTest).1.length
      + (trainTestSplit xs ys perm nTest).2.1.length = xs.length) ∧
    ((trainTestSplit xs ys perm nTest).2.2.1.length
      + (trainTestSplit xs ys perm nTest).2.2.2.length = ys.length) := by
  have hpl : perm.length = xs.length := by
    simpa using hperm.length_eq
  have hmem : ∀ i ∈ perm, i < xs.length := fun i hi =>
    List.mem_range.mp (hperm.subset hi)
  have hmemy : ∀ i ∈ perm, i < ys.length := fun i hi => hlen ▸ hmem i hi
  have htake : ∀ i ∈ perm.take nTest, i < xs.length := fun i hi =>
    hmem i (List.take_subset nTest perm hi)
  have hdrop : ∀ i ∈ perm.drop nTest, i < xs.length := fun i hi =>
    hmem i (List.drop_subset nTest perm hi)
  have htakey : ∀ i ∈ perm.take nTest, i < ys.length := fun i hi =>
    hlen ▸ htake i hi
  have hdropy : ∀ i ∈ perm.drop nTest, i < ys.length := fun i hi =>
    hlen ▸ hdrop i hi
  constructor
  · have h1 := length_filterMap_getElem xs (perm.drop nTest) hdrop
    have h2 := length_filterMap_getElem xs (perm.take nTest) htake
    simp only [trainTestSplit, h1, h2, List.length_drop, List.length_take]
    omega
  · have h1 := length_filterMap_getElem ys (perm.drop nTest) hdropy
    have h2 := length_filterMap_getElem ys (perm.take nTest) htakey
    simp only [trainTestSplit, h1, h2, List.length_drop, List.length_take]
    omega

/-- **C2.** The dataset splits preserve row count: for every input dataset and
shuffle permutation, the `train_test_split` calls of the notebooks
(`test_size=0.25` on the Boston housing data, `test_size=0.2` on the AG News
padded documents) produce a train part and a test part whose row counts sum
to the row count of the input, and likewise for the target arrays. -/
theorem C2_train_test_split_preserves_row_count
    (dataX : List (List ℚ)) (dataY : List ℚ) (permB : List Nat)
    (docs : List (List Nat)) (encodedY : List (List ℚ)) (permA : List Nat)
    (hpB : permB.Perm (List.range dataX.length))
    (hlB : dataY.length = dataX.length)
    (hpA : permA.Perm (List.range docs.length))
    (hlA : encodedY.length = docs.length) :
    ((bostonHousingSplit dataX dataY permB).1.length
        + (bostonHousingSplit dataX dataY permB).2.1.length = dataX.length ∧
      (bostonHousingSplit dataX dataY permB).2.2.1.length
        + (bostonHousingSplit dataX dataY permB).2.2.2.length = dataY.length) ∧
    ((agNewsSplit docs encodedY permA).1.length
        + (agNewsSplit docs encodedY permA).2.1.length = docs.length ∧
      (agNewsSplit docs encodedY permA).2.2.1.length
        + (agNewsSplit docs encodedY permA).2.2.2.length = encodedY.length) :=
  ⟨trainTestSplit_counts dataX dataY permB _ hpB hlB,
   trainTestSplit_counts docs encodedY permA _ hpA hlA⟩

/-- Witness for C2: a four-row Boston-style dataset with a concrete shuffle
and a two-row AG-News-style dataset. -/
theorem C2_train_test_split_preserves_row_count_witness :
    (([2, 0, 3, 1] : List Nat).Perm (List.range 4) ∧
      ([1, 0] : List Nat).Perm (List.range 2)) ∧
    ((bostonHousingSplit [[1], [2], [3], [4]] [10, 20, 30, 40] [2, 0, 3, 1]).1.length
        + (bostonHousingSplit [[1], [2], [3], [4]] [10, 20, 30, 40] [2, 0, 3, 1]).2.1.length = 4) ∧
    ((agNewsSplit [[5], [6]] [[1, 0], [0, 1]] [1, 0]).1.length
        + (agNewsSplit [[5], [6]] [[1, 0], [0, 1]] [1, 0]).2.1.length = 2) := by
  refine ⟨⟨by decide, by decide⟩, ?_, ?_⟩
  · exact ((C2_train_test_split_preserves_row_count [[1], [2], [3], [4]]
      [10, 20, 30, 40] [2, 0, 3, 1] [[5], [6]] [[1, 0], [0, 1]] [1, 0]
      (by decide) (by decide) (by decide) (by decide)).1).1
  · exact ((C2_train_test_split_preserves_row_count [[1], [2], [3], [4]]
      [10, 20, 30, 40] [2, 0, 3, 1] [[5], [6]] [[1, 0], [0, 1]] [1, 0]
      (by decide) (by decide) (by decide) (by decide)).2).1

/-! ## The generated `source/sklearn_training_script.py`

The script defines `model_fn` (inference-time loading) and a `__main__` block:
argparse with `parse_known_args`, two `pd.read_csv` calls, column selection,
`RandomForestRegressor(...).fit`, a percentile-metric print loop, and
`joblib.dump` to `os.path.join(args.model_dir, "model.joblib")`. -/

/-- The Python exceptions that can escape the script's `__main__` block. -/
inductive PyErr where
  | fileNotFound : String → PyErr
  | parserError : String → PyErr
  | keyError : String → PyErr
  | attributeError : PyErr
  | typeError : PyErr
  | valueError : String → PyErr
  | argparseMissingValue : String → PyErr
  | argparseUnrecognized : PyErr
  | fitError : String → PyErr
  | indexError : PyErr
  deriving DecidableEq

/-- The namespace produced by the script's argument parser. -/
structure Args where
  n_estimators : Int
  min_samples_leaf : Int
  model_dir : Option String
  train_dir : Option String
  test_dir : Option String
  train_file : String
  test_file : String
  features : Option String
  target_variable : Option String
  deriving DecidableEq

/-- The parser defaults: `10`, `3`, the `SM_*` environment variables, the two
Boston CSV names, and `None` for `--features` / `--target_variable`. -/
def defaultArgs (env : String → Option String) : Args where
  n_estimators := 10
  min_samples_leaf := 3
  model_dir := env "SM_MODEL_DIR"
  train_dir := env "SM_CHANNEL_TRAIN"
  test_dir := env "SM_CHANNEL_TEST"
  train_file := "boston_train.csv"
  test_file := "boston_test.csv"
  features := none
  target_variable := none

/-- The flags registered with `parser.add_argument`. -/
def knownFlags : List String :=
  ["--n_estimators", "--min_samples_leaf", "--model_dir", "--train_dir",
   "--test_dir", "--train_file", "--test_file", "--features",
   "--target_variable"]

def isKnownFlag (t : String) : Bool := knownFlags.contains t

/-- Accumulate the decimal digits of a numeral; any non-digit fails. -/
def digitsToNatAux : List Char → Nat → Option Nat
  | [], acc => some acc
  | c :: rest, acc =>
    if c.isDigit then digitsToNatAux rest (acc * 10 + (c.toNat - 48))
    else none

/-- `int(s)` for the decimal (optionally signed) strings argparse receives. -/
def pyInt (s : String) : Except PyErr Int :=
  match s.data with
  | [] => .error (.valueError s)
  | '-' :: rest =>
    match rest, digitsToNatAux rest 0 with
    | _ :: _, some n => .ok (-(n : Int))
    | _, _ => .error (.valueError s)
  | cs =>
    match digitsToNatAux cs 0 with
    | some n => .ok (n : Int)
    | none => .error (.valueError s)

/-- Store a known flag's value in the namespace (with `int` conversion for
the two integer hyperparameters). -/
def setKnownFlag (a : Args) (flag v : String) : Except PyErr Args :=
  if flag = "--n_estimators" then do
    let n ← pyInt v
    .ok { a with n_estimators := n }
  else if flag = "--min_samples_leaf" then do
    let n ← pyInt v
    .ok { a with min_samples_leaf := n }
  else if flag = "--model_dir" then .ok { a with model_dir := some v }
  else if flag = "--train_dir" then .ok { a with train_dir := some v }
  else if flag = "--test_dir" then .ok { a with test_dir := some v }
  else if flag = "--train_file" then .ok { a with train_file := v }
  else if flag = "--test_file" then .ok { a with test_file := v }
  else if flag = "--features" then .ok { a with features := some v }
  else .ok { a with target_variable := some v }

/-- `parser.parse_known_args()`: scan the argument vector; a known flag
consumes the next token as its value, and every other token is collected into
the returned remainder instead of raising.  (The model covers the
`--flag value` spelling used by the notebook and the SageMaker runtime; it
does not model abbreviated or `--flag=value` spellings.) -/
def parseKnownArgs : List String → Args → Except PyErr (Args × List String)
  | [], a => .ok (a, [])
  | t :: rest, a =>
    if isKnownFlag t then
      match rest with
      | [] => .error (.argparseMissingValue t)
      | v :: rest' =>
        match setKnownFlag a t v with
        | .error e => .error e
        | .ok a' =>
          match parseKnownArgs rest' a' with
          | .error e => .error e
          | .ok (a'', extras) => .ok (a'', extras)
    else
      match parseKnownArgs rest a with
      | .error e => .error e
      | .ok (a', extras) => .ok (a', t :: extras)

/-- `parser.parse_args()` (what the script deliberately does **not** call):
parse, then raise `error: unrecognized arguments` on any remainder. -/
def parseArgsStrict (a : Args) (argv : List String) : Except PyErr Args :=
  match parseKnownArgs argv a with
  | .ok (a', []) => .ok a'
  | .ok (_, _ :: _) => .error .argparseUnrecognized
  | .error e => .error e

/-- A pandas `DataFrame` as produced by `pd.read_csv`: named columns over
rows of rational cells (row-major, aligned with `columns`). -/
structure DataFrame where
  columns : List String
  rows : List (List ℚ)

/-- `df[names]` (projection onto a list of columns); pandas raises `KeyError`
when a requested column is missing. -/
def DataFrame.select (df : DataFrame) (names : List String) :
    Except PyErr (List (List ℚ)) :=
  if names.all (fun n => df.columns.contains n) then
    .ok (df.rows.map (fun r => names.filterMap (fun n => (df.columns.zip r).lookup n)))
  else
    .error (.keyError (String.intercalate " " names))

/-- `df[name]` for a single column name coming from an `Option`-valued
argument; `df[None]` and a missing column both raise `KeyError`. -/
def DataFrame.col (df : DataFrame) (name : Option String) :
    Except PyErr (List ℚ) :=
  match name with
  | none => .error (.keyError "None")
  | some n =>
    if df.columns.contains n then
      .ok (df.rows.map (fun r => (((df.columns.zip r).lookup n)).getD 0))
    else
      .error (.keyError n)

/-- Helper for `str.split()`: split on runs of spaces, dropping empties
(`acc` holds the current word, reversed). -/
def pySplitAux : List Char → List Char → List String
  | [], acc => if acc.isEmpty then [] else [String.mk acc.reverse]
  | c :: rest, acc =>
    if c = ' ' then
      if acc.isEmpty then pySplitAux rest []
      else String.mk acc.reverse :: pySplitAux rest []
    else pySplitAux rest (c :: acc)

/-- Python `str.split()` on whitespace. -/
def pyStrSplit (s : String) : List String := pySplitAux s.data []

/-- `args.features.split()`: calling `.split()` on the `None` default raises
`AttributeError`. -/
def featuresSplit : Option String → Except PyErr (List String)
  | none => .error .attributeError
  | some s => .ok (pyStrSplit s)

/-- A fitted `RandomForestRegressor`: hyperparameters plus the learnt
prediction function, kept abstract. -/
structure RFModel where
  n_estimators : Int
  min_samples_leaf : Int
  predict : List (List ℚ) → List ℚ

/-- The directory contents seen by `joblib.dump` / `joblib.load`: a mapping
from file paths to the model objects serialized there. -/
def JoblibFS : Type := List (String × RFModel)

/-- `joblib.dump(model, path)`. -/
def joblibDump (fs : JoblibFS) (m : RFModel) (path : String) : JoblibFS :=
  (path, m) :: fs

/-- `joblib.load(path)`; a missing file raises. -/
def joblibLoad (fs : JoblibFS) (path : String) : Except PyErr RFModel :=
  match List.lookup path fs with
  | some m => .ok m
  | none => .error (.fileNotFound path)

/-- Does `path` exist in the directory contents? -/
def fileExists (fs : JoblibFS) (path : String) : Bool :=
  (List.lookup path fs).isSome

/-- `os.path.join(a, b)` for the relative, non-empty second components the
script uses. -/
def osPathJoin (a b : String) : String :=
  if a = "" then b
  else if a.data.getLast? = some '/' then a ++ b
  else a ++ "/" ++ b

/-- The save path of the training block:
`path = os.path.join(args.model_dir, "model.joblib")` (line of
`joblib.dump`). -/
def savePath (model_dir : String) : String := osPathJoin model_dir "model.joblib"

/-- The load path inside `model_fn`:
`os.path.join(model_dir, "model.joblib")`. -/
def modelFnLoadPath (model_dir : String) : String :=
  osPathJoin model_dir "model.joblib"

/-- `model_fn(model_dir)`:
`clf = joblib.load(os.path.join(model_dir, "model.joblib")); return clf`. -/
def model_fn (fs : JoblibFS) (model_dir : String) : Except PyErr RFModel :=
  joblibLoad fs (modelFnLoadPath model_dir)

/-- `os.path.join(None, ...)` raises `TypeError`; with a present directory
argument it proceeds. -/
def pathOrTypeError : Option String → Except PyErr String
  | none => .error .typeError
  | some s => .ok s

/-- Outcomes of the external library calls of the training block: reading a
CSV from a path (bad paths and malformed files yield the library's error) and
fitting the regressor on the prepared arrays. -/
structure SklearnLib where
  read_csv : String → Except PyErr DataFrame
  fit : List (List ℚ) → List ℚ → Int → Int → Except PyErr RFModel

/-! ### `np.percentile` and the printed metric lines -/

/-- Insert into a sorted list (ascending). -/
def insertSorted (x : ℚ) : List ℚ → List ℚ
  | [] => [x]
  | y :: ys => if x ≤ y then x :: y :: ys else y :: insertSorted x ys

/-- `np.sort`: ascending sort (the sorted output is determined by the input
multiset, so insertion sort models it exactly). -/
def npSort (l : List ℚ) : List ℚ := l.foldr insertSorted []

/-- `np.percentile(a, q)` with the default linear interpolation, over the
rationals; defined for nonempty `a`. -/
def npPercentile (a : List ℚ) (q : ℚ) : ℚ :=
  let s := npSort a
  let n := s.length
  let h : ℚ := ((n : ℚ) - 1) * q / 100
  let lo : Nat := (⌊h⌋).toNat
  let hi : Nat := min (lo + 1) (n - 1)
  s.getD lo 0 + (h - (lo : ℚ)) * (s.getD hi 0 - s.getD lo 0)

/-- Decimal digit characters of a natural number, via explicit fuel so that
the definition is structural. -/
def natDigitsAux : Nat → Nat → List Char
  | 0, _ => []
  | fuel + 1, n =>
    if n < 10 then [Nat.digitChar n]
    else natDigitsAux fuel (n / 10) ++ [Nat.digitChar (n % 10)]

def natDigits (n : Nat) : List Char := natDigitsAux (n + 1) n

/-- `prec` decimal digits of the fractional part of a nonnegative rational. -/
def fracDigits (q : ℚ) : Nat → List Char
  | 0 => []
  | p + 1 =>
    Nat.digitChar ((⌊q * 10⌋).toNat % 10) :: fracDigits (q * 10 - (⌊q * 10⌋ : ℚ)) p

/-- CPython `str()` of the finite float values the script prints: optional
sign, integer part, decimal point, fractional digits.  (CPython's
shortest-repr digit selection is abstracted by printing 17 fractional
digits; the theorems below depend only on the leading structure of the
string.) -/
def pyFloatStr (q : ℚ) : List Char :=
  (if q < 0 then ['-'] else []) ++
    natDigits (⌊|q|⌋).toNat ++ '.' :: fracDigits (|q| - (⌊|q|⌋ : ℚ)) 17

/-- One line of the loop
`print('AE-at-' + str(q) + 'th-percentile: ' + str(np.percentile(a=abs_err, q=q)))`. -/
def aeLine (q : Nat) (v : ℚ) : List Char :=
  ("AE-at-" ++ toString q ++ "th-percentile: ").toList ++ pyFloatStr v

/-- The console lines printed by `for q in [10, 50, 90]: ...`. -/
def percentileLines (absErr : List ℚ) : List (List Char) :=
  [10, 50, 90].map (fun q => aeLine q (npPercentile absErr (q : ℚ)))

/-- The literal part of the estimator's `metric_definitions` regex
`'AE-at-50th-percentile: ([0-9.]+).*$'`. -/
def medianAEPrefix : List Char := "AE-at-50th-percentile: ".toList

/-- Does the metric regex match at offset `i` of the line: the literal prefix
followed by at least one character of the class `[0-9.]` (the `.*$` tail
matches anything)? -/
def medianAEMatchAt (line : List Char) (i : Nat) : Bool :=
  medianAEPrefix.isPrefixOf (line.drop i) &&
    match (line.drop i).drop medianAEPrefix.length with
    | [] => false
    | c :: _ => c.isDigit || c == '.'

/-- Regex-search semantics of the metric scraper: does
`AE-at-50th-percentile: ([0-9.]+).*$` match anywhere in the line? -/
def matchesMedianAERegex (line : List Char) : Bool :=
  (List.range (line.length + 1)).any (fun i => medianAEMatchAt line i)

/-- The `__main__` block of `sklearn_training_script.py`, from argument
parsing to `joblib.dump`: `argv` is the command line after the program name,
`env` the process environment, `lib` the behaviour of the external library
calls, and `fs` the directory contents.  A successful run returns the final
directory contents together with the absolute-error list whose percentiles
the loop prints (`percentileLines`). -/
def mainRun (lib : SklearnLib) (env : String → Option String)
    (argv : List String) (fs : JoblibFS) :
    Except PyErr (JoblibFS × List ℚ) := do
  let (args, _unknown) ← parseKnownArgs argv (defaultArgs env)
  let trainDir ← pathOrTypeError args.train_dir
  let train_df ← lib.read_csv (osPathJoin trainDir args.train_file)
  let testDir ← pathOrTypeError args.test_dir
  let test_df ← lib.read_csv (osPathJoin testDir args.test_file)
  let feats ← featuresSplit args.features
  let X_train ← train_df.select feats
  let X_test ← test_df.select feats
  let _y_train ← train_df.col args.target_variable
  let y_test ← test_df.col args.target_variable
  let model ← lib.fit X_train _y_train args.n_estimators args.min_samples_leaf
  let abs_err := (List.zip (model.predict X_test) y_test).map (fun p => |p.1 - p.2|)
  if abs_err.isEmpty then
    .error .indexError
  else do
    let modelDir ← pathOrTypeError args.model_dir
    .ok (joblibDump fs model (savePath modelDir), abs_err)

/-! ### Theorems about the training script -/

/-- Splitting a successful `Except` bind. -/
theorem except_bind_eq_ok {ε α β : Type} {x : Except ε α} {f : α → Except ε β}
    {b : β} : (x >>= f) = Except.ok b ↔ ∃ a, x = Except.ok a ∧ f a = Except.ok b := by
  cases x <;> simp [Bind.bind, Except.bind]

/-- **C9.** The script never fails on unrecognized command-line arguments:
prepending a token that is not a registered flag leaves `parse_known_args`
with the same parse, merely adding the token to the discarded remainder —
whereas `parse_args` on the same vector would raise
`unrecognized arguments`. -/
theorem C9_parse_known_args_ignores_unknown_flags (a : Args)
    (argv : List String) (u : String) (hu : isKnownFlag u = false) :
    parseKnownArgs (u :: argv) a =
      (parseKnownArgs argv a).map (fun p => (p.1, u :: p.2)) ∧
    (∀ r, parseKnownArgs argv a = .ok r →
      parseArgsStrict a (u :: argv) = .error .argparseUnrecognized) := by
  have hmain : parseKnownArgs (u :: argv) a =
      (parseKnownArgs argv a).map (fun p => (p.1, u :: p.2)) := by
    rw [parseKnownArgs.eq_def]
    simp only [hu, Bool.false_eq_true, if_false]
    cases h : parseKnownArgs argv a <;> simp [h, Except.map]
  refine ⟨hmain, ?_⟩
  intro r hr
  rw [parseArgsStrict, hmain, hr]
  rfl

/-- Witness for C9: an injected SageMaker-style flag is discarded. -/
theorem C9_parse_known_args_ignores_unknown_flags_witness :
    isKnownFlag "--sagemaker_submit_directory" = false ∧
    parseKnownArgs ("--sagemaker_submit_directory" :: ["--n_estimators", "5"])
        (defaultArgs (fun _ => none)) =
      (parseKnownArgs ["--n_estimators", "5"] (defaultArgs (fun _ => none))).map
        (fun p => (p.1, "--sagemaker_submit_directory" :: p.2)) ∧
    parseArgsStrict (defaultArgs (fun _ => none))
        ("--sagemaker_submit_directory" :: ["--n_estimators", "5"]) =
      .error .argparseUnrecognized := by
  have h := C9_parse_known_args_ignores_unknown_flags
    (defaultArgs (fun _ => none)) ["--n_estimators", "5"]
    "--sagemaker_submit_directory" (by decide)
  exact ⟨by decide, h.1,
    h.2 ({ defaultArgs (fun _ => none) with n_estimators := 5 }, []) (by rfl)⟩

/-- **C4.** Failures raised by the underlying library calls inside the
script's `__main__` block propagate to the caller unchanged: a failing
`pd.read_csv` on the train or test path, a missing `--features` argument
(`None.split()` raises `AttributeError`), a missing `--target_variable`
(`df[None]` raises `KeyError`), and an exception from `model.fit` each abort
the run with exactly that error — no handler, retry, or partial-failure
recovery intervenes. -/
theorem C4_library_errors_propagate_uncaught (lib : SklearnLib)
    (env : String → Option String) (argv : List String) (fs : JoblibFS)
    (args : Args) (unknown : List String) (e : PyErr)
    (hargs : parseKnownArgs argv (defaultArgs env) = .ok (args, unknown)) :
    (∀ td, args.train_dir = some td →
      lib.read_csv (osPathJoin td args.train_file) = .error e →
      mainRun lib env argv fs = .error e) ∧
    (∀ td te df₁, args.train_dir = some td → args.test_dir = some te →
      lib.read_csv (osPathJoin td args.train_file) = .ok df₁ →
      lib.read_csv (osPathJoin te args.test_file) = .error e →
      mainRun lib env argv fs = .error e) ∧
    (∀ td te df₁ df₂, args.train_dir = some td → args.test_dir = some te →
      lib.read_csv (osPathJoin td args.train_file) = .ok df₁ →
      lib.read_csv (osPathJoin te args.test_file) = .ok df₂ →
      args.features = none →
      mainRun lib env argv fs = .error .attributeError) ∧
    (∀ td te df₁ df₂ feats X₁ X₂, args.train_dir = some td →
      args.test_dir = some te →
      lib.read_csv (osPathJoin td args.train_file) = .ok df₁ →
      lib.read_csv (osPathJoin te args.test_file) = .ok df₂ →
      featuresSplit args.features = .ok feats →
      df₁.select feats = .ok X₁ → df₂.select feats = .ok X₂ →
      args.target_variable = none →
      mainRun lib env argv fs = .error (.keyError "None")) ∧
    (∀ td te df₁ df₂ feats X₁ X₂ y₁ y₂, args.train_dir = some td →
      args.test_dir = some te →
      lib.read_csv (osPathJoin td args.train_file) = .ok df₁ →
      lib.read_csv (osPathJoin te args.test_file) = .ok df₂ →
      featuresSplit args.features = .ok feats →
      df₁.select feats = .ok X₁ → df₂.select feats = .ok X₂ →
      df₁.col args.target_variable = .ok y₁ →
      df₂.col args.target_variable = .ok y₂ →
      lib.fit X₁ y₁ args.n_estimators args.min_samples_leaf = .error e →
      mainRun lib env argv fs = .error e) := by
  refine ⟨?_, ?_, ?_, ?_, ?_⟩
  · intro td htd hre
    simp [mainRun, hargs, htd, hre, pathOrTypeError, Bind.bind, Except.bind]
  · intro td te df₁ htd hte hr₁ hr₂
    simp [mainRun, hargs, htd, hte, hr₁, hr₂, pathOrTypeError, Bind.bind,
      Except.bind]
  · intro td te df₁ df₂ htd hte hr₁ hr₂ hf
    simp [mainRun, hargs, htd, hte, hr₁, hr₂, hf, pathOrTypeError,
      featuresSplit, Bind.bind, Except.bind]
  · intro td te df₁ df₂ feats X₁ X₂ htd hte hr₁ hr₂ hf hs₁ hs₂ htv
    simp [mainRun, hargs, htd, hte, hr₁, hr₂, hf, hs₁, hs₂, htv,
      pathOrTypeError, DataFrame.col, Bind.bind, Except.bind]
  · intro td te df₁ df₂ feats X₁ X₂ y₁ y₂ htd hte hr₁ hr₂ hf hs₁ hs₂ hc₁ hc₂
      hfit
    simp [mainRun, hargs, htd, hte, hr₁, hr₂, hf, hs₁, hs₂, hc₁, hc₂, hfit,
      pathOrTypeError, Bind.bind, Except.bind]

/-! Concrete fixtures for the script witnesses. -/

/-- Fixture: no environment variables set. -/
def envNone : String → Option String := fun _ => none

/-- Fixture: the local-training style invocation (abbreviated feature
list). -/
def argvLocal : List String :=
  ["--model_dir", "model/", "--train_dir", "data", "--test_dir", "data",
   "--features", "CRIM ZN", "--target_variable", "target"]

/-- Fixture: the namespace `argvLocal` parses to. -/
def argsLocal : Args where
  n_estimators := 10
  min_samples_leaf := 3
  model_dir := some "model/"
  train_dir := some "data"
  test_dir := some "data"
  train_file := "boston_train.csv"
  test_file := "boston_test.csv"
  features := some "CRIM ZN"
  target_variable := some "target"

/-- Fixture: a two-row Boston-style CSV. -/
def dfBoston : DataFrame where
  columns := ["CRIM", "ZN", "target"]
  rows := [[1, 2, 10], [3, 4, 20]]

/-- Fixture: a library in which every call succeeds. -/
def libOk : SklearnLib where
  read_csv := fun _ => .ok dfBoston
  fit := fun _X _y n m =>
    .ok { n_estimators := n, min_samples_leaf := m,
          predict := fun rows => rows.map (fun _ => 0) }

/-- Fixture: a library whose `read_csv` always fails. -/
def libBadPath : SklearnLib where
  read_csv := fun p => .error (.fileNotFound p)
  fit := libOk.fit

set_option maxHeartbeats 1000000 in
/-- Witness for C4: with a bad data path, the run ends with exactly the
`FileNotFoundError` of `pd.read_csv` on the train file. -/
theorem C4_library_errors_propagate_uncaught_witness :
    parseKnownArgs argvLocal (defaultArgs envNone) = .ok (argsLocal, []) ∧
    mainRun libBadPath envNone argvLocal [] =
      .error (.fileNotFound "data/boston_train.csv") :=
  ⟨by rfl,
   (C4_library_errors_propagate_uncaught libBadPath envNone argvLocal []
      argsLocal [] (.fileNotFound "data/boston_train.csv") (by rfl)).1
     "data" (by rfl) (by rfl)⟩

/-- **C3.** The model file exists after saving: every successful run of the
script's `__main__` block ends with `model.joblib` present in
`args.model_dir`, the save path and `model_fn`'s load path are the same
`os.path.join(model_dir, "model.joblib")`, and `model_fn` called on that
directory returns exactly the model `joblib.dump` wrote (which is the model
`fit` returned). -/
theorem C3_model_file_exists_after_saving (lib : SklearnLib)
    (env : String → Option String) (argv : List String) (fs : JoblibFS)
    (fs' : JoblibFS) (absErr : List ℚ)
    (hrun : mainRun lib env argv fs = .ok (fs', absErr)) :
    ∃ args unknown md model,
      parseKnownArgs argv (defaultArgs env) = .ok (args, unknown) ∧
      args.model_dir = some md ∧
      savePath md = modelFnLoadPath md ∧
      fs' = joblibDump fs model (savePath md) ∧
      fileExists fs' (savePath md) = true ∧
      model_fn fs' md = .ok model := by
  rw [mainRun] at hrun
  rw [except_bind_eq_ok] at hrun
  obtain ⟨⟨args, unknown⟩, hargs, hrun⟩ := hrun
  rw [except_bind_eq_ok] at hrun
  obtain ⟨td, _htd, hrun⟩ := hrun
  rw [except_bind_eq_ok] at hrun
  obtain ⟨te, _hte, hrun⟩ := hrun
  rw [except_bind_eq_ok] at hrun
  obtain ⟨df₁, _hr₁, hrun⟩ := hrun
  rw [except_bind_eq_ok] at hrun
  obtain ⟨df₂, _hr₂, hrun⟩ := hrun
  rw [except_bind_eq_ok] at hrun
  obtain ⟨feats, _hf, hrun⟩ := hrun
  rw [except_bind_eq_ok] at hrun
  obtain ⟨X₁, _hs₁, hrun⟩ := hrun
  rw [except_bind_eq_ok] at hrun
  obtain ⟨X₂, _hs₂, hrun⟩ := hrun
  rw [except_bind_eq_ok] at hrun
  obtain ⟨y₁, _hc₁, hrun⟩ := hrun
  rw [except_bind_eq_ok] at hrun
  obtain ⟨y₂, _hc₂, hrun⟩ := hrun
  rw [except_bind_eq_ok] at hrun
  obtain ⟨model, _hfit, hrun⟩ := hrun
  by_cases hemp :
      ((List.zip (model.predict X₂) y₂).map (fun p => |p.1 - p.2|)).isEmpty
  · rw [if_pos hemp] at hrun
    exact absurd hrun (by simp)
  · rw [if_neg hemp] at hrun
    rw [except_bind_eq_ok] at hrun
    obtain ⟨md, hmd, hrun⟩ := hrun
    refine ⟨args, unknown, md, model, hargs, ?_, rfl, ?_, ?_, ?_⟩
    · cases h : args.model_dir with
      | none => rw [h] at hmd; exact absurd hmd (by simp [pathOrTypeError])
      | some s =>
        rw [h] at hmd
        simp only [pathOrTypeError, Except.ok.injEq] at hmd
        rw [hmd]
    · have hfs : joblibDump fs model (savePath md) = fs' :=
        congrArg Prod.fst (Except.ok.inj hrun)
      exact hfs.symm
    · have hfs : joblibDump fs model (savePath md) = fs' :=
        congrArg Prod.fst (Except.ok.inj hrun)
      rw [hfs.symm]
      simp [fileExists, joblibDump, List.lookup]
    · have hfs : joblibDump fs model (savePath md) = fs' :=
        congrArg Prod.fst (Except.ok.inj hrun)
      rw [hfs.symm]
      simp [model_fn, joblibLoad, joblibDump, List.lookup, modelFnLoadPath,
        savePath]

set_option maxHeartbeats 1000000 in
/-- Evaluation of the fixture run: parsing `argvLocal`, reading `dfBoston`
twice, fitting, and dumping to `model/model.joblib` with absolute errors
`[10, 20]`. -/
theorem mainRun_fixture_eval :
    mainRun libOk envNone argvLocal [] =
      .ok ([("model/model.joblib",
             { n_estimators := 10, min_samples_leaf := 3,
               predict := fun rows => rows.map (fun _ => 0) })], [10, 20]) := by
  have hparse : parseKnownArgs argvLocal (defaultArgs envNone) =
      .ok (argsLocal, []) := by rfl
  rw [mainRun, hparse]
  simp +decide only [argsLocal, libOk, dfBoston, pathOrTypeError, osPathJoin,
    DataFrame.select, DataFrame.col, featuresSplit, pyStrSplit, pySplitAux,
    savePath, joblibDump, List.lookup, Bind.bind, Except.bind]
  norm_num
  exact ⟨rfl, rfl, rfl⟩

set_option maxHeartbeats 1000000 in
/-- Witness for C3: a concrete successful run whose saved model `model_fn`
recovers. -/
theorem C3_model_file_exists_after_saving_witness :
    mainRun libOk envNone argvLocal [] =
      .ok ([("model/model.joblib",
             { n_estimators := 10, min_samples_leaf := 3,
               predict := fun rows => rows.map (fun _ => 0) })], [10, 20]) ∧
    (∃ args unknown md model,
      parseKnownArgs argvLocal (defaultArgs envNone) = .ok (args, unknown) ∧
      args.model_dir = some md ∧
      savePath md = modelFnLoadPath md ∧
      ([("model/model.joblib",
         { n_estimators := 10, min_samples_leaf := 3,
           predict := fun rows => rows.map (fun _ => 0) })] : JoblibFS) =
        joblibDump [] model (savePath md) ∧
      fileExists [("model/model.joblib",
         { n_estimators := 10, min_samples_leaf := 3,
           predict := fun rows => rows.map (fun _ => 0) })] (savePath md) = true ∧
      model_fn [("model/model.joblib",
         { n_estimators := 10, min_samples_leaf := 3,
           predict := fun rows => rows.map (fun _ => 0) })] md = .ok model) :=
  ⟨mainRun_fixture_eval,
   C3_model_file_exists_after_saving libOk envNone argvLocal [] _ [10, 20]
     mainRun_fixture_eval⟩

/-! ### The percentile metric lines and the metric-definitions regex (C10) -/

theorem digitChar_isDigit {d : Nat} (hd : d < 10) :
    (Nat.digitChar d).isDigit = true := by
  interval_cases d <;> decide

theorem natDigitsAux_head_isDigit :
    ∀ (fuel n : Nat), n < fuel →
      ∃ c cs, natDigitsAux fuel n = c :: cs ∧ c.isDigit = true := by
  intro fuel
  induction fuel with
  | zero => intro n h; omega
  | succ fuel ih =>
    intro n h
    by_cases h10 : n < 10
    · exact ⟨Nat.digitChar n, [], by simp [natDigitsAux, h10],
        digitChar_isDigit h10⟩
    · have hdiv : n / 10 < fuel := by
        have : n / 10 < n := Nat.div_lt_self (by omega) (by omega)
        omega
      obtain ⟨c, cs, hcs, hd⟩ := ih (n / 10) hdiv
      exact ⟨c, cs ++ [Nat.digitChar (n % 10)],
        by simp [natDigitsAux, h10, hcs], hd⟩

theorem natDigitsAux_all_isDigit :
    ∀ (fuel n : Nat), ∀ c ∈ natDigitsAux fuel n, c.isDigit = true := by
  intro fuel
  induction fuel with
  | zero => intro n c hc; simp [natDigitsAux] at hc
  | succ fuel ih =>
    intro n c hc
    by_cases h10 : n < 10
    · simp [natDigitsAux, h10] at hc
      rw [hc]
      exact digitChar_isDigit h10
    · simp only [natDigitsAux, h10, if_false, List.mem_append,
        List.mem_singleton] at hc
      rcases hc with hc | hc
      · exact ih (n / 10) c hc
      · rw [hc]
        exact digitChar_isDigit (Nat.mod_lt n (by omega))

theorem fracDigits_all_isDigit :
    ∀ (p : Nat) (q : ℚ), ∀ c ∈ fracDigits q p, c.isDigit = true := by
  intro p
  induction p with
  | zero => intro q c hc; simp [fracDigits] at hc
  | succ p ih =>
    intro q c hc
    simp only [fracDigits, List.mem_cons] at hc
    rcases hc with hc | hc
    · rw [hc]
      exact digitChar_isDigit (Nat.mod_lt _ (by omega))
    · exact ih _ c hc

/-- For the nonnegative values the loop prints, `str()` starts with a decimal
digit. -/
theorem pyFloatStr_head_digit (q : ℚ) (hq : 0 ≤ q) :
    ∃ c cs, pyFloatStr q = c :: cs ∧ c.isDigit = true := by
  obtain ⟨c, cs, hcs, hd⟩ :=
    natDigitsAux_head_isDigit ((⌊|q|⌋).toNat + 1) (⌊|q|⌋).toNat (by omega)
  refine ⟨c, cs ++ '.' :: fracDigits (|q| - (⌊|q|⌋ : ℚ)) 17, ?_, hd⟩
  rw [pyFloatStr, if_neg (not_lt.mpr hq)]
  simp [natDigits, hcs]

/-- Every character `str()` emits is a digit, the decimal point, or a sign. -/
theorem pyFloatStr_chars (q : ℚ) :
    ∀ c ∈ pyFloatStr q, c.isDigit = true ∨ c = '.' ∨ c = '-' := by
  intro c hc
  rw [pyFloatStr] at hc
  rcases List.mem_append.mp hc with hleft | hdot
  · rcases List.mem_append.mp hleft with hsign | hnat
    · by_cases hq : q < 0
      · rw [if_pos hq] at hsign
        simp only [List.mem_singleton] at hsign
        exact Or.inr (Or.inr hsign)
      · rw [if_neg hq] at hsign
        simp at hsign
    · exact Or.inl
        (natDigitsAux_all_isDigit _ _ c (by simpa [natDigits] using hnat))
  · rcases List.mem_cons.mp hdot with hc1 | hfrac
    · exact Or.inr (Or.inl hc1)
    · exact Or.inl (fracDigits_all_isDigit _ _ c hfrac)

theorem insertSorted_mem {x a : ℚ} :
    ∀ {l : List ℚ}, a ∈ insertSorted x l → a = x ∨ a ∈ l := by
  intro l
  induction l with
  | nil => intro h; simpa [insertSorted] using h
  | cons y ys ih =>
    intro h
    rw [insertSorted] at h
    by_cases hxy : x ≤ y
    · rw [if_pos hxy] at h
      exact List.mem_cons.mp h
    · rw [if_neg hxy] at h
      rcases List.mem_cons.mp h with h1 | h2
      · exact Or.inr (h1 ▸ List.mem_cons_self y ys)
      · rcases ih h2 with h3 | h4
        · exact Or.inl h3
        · exact Or.inr (List.mem_cons_of_mem y h4)

theorem npSort_mem {a : ℚ} : ∀ {l : List ℚ}, a ∈ npSort l → a ∈ l := by
  intro l
  induction l with
  | nil => intro h; simpa [npSort] using h
  | cons x xs ih =>
    intro h
    rcases insertSorted_mem h with h1 | h2
    · exact h1 ▸ List.mem_cons_self x xs
    · exact List.mem_cons_of_mem x (ih h2)

theorem insertSorted_length (x : ℚ) :
    ∀ (l : List ℚ), (insertSorted x l).length = l.length + 1 := by
  intro l
  induction l with
  | nil => simp [insertSorted]
  | cons y ys ih =>
    rw [insertSorted]
    by_cases hxy : x ≤ y
    · rw [if_pos hxy]; simp
    · rw [if_neg hxy]; simp [ih]

theorem npSort_length : ∀ (l : List ℚ), (npSort l).length = l.length := by
  intro l
  induction l with
  | nil => simp [npSort]
  | cons x xs ih =>
    show (insertSorted x (npSort xs)).length = xs.length + 1
    rw [insertSorted_length, ih]

/-- `np.percentile` of nonnegative data at a percentile in `[0, 100]` is
nonnegative. -/
theorem npPercentile_nonneg (a : List ℚ) (q : ℚ) (ha : a ≠ [])
    (hpos : ∀ x ∈ a, 0 ≤ x) (hq0 : 0 ≤ q) (hq100 : q ≤ 100) :
    0 ≤ npPercentile a q := by
  rw [npPercentile]
  set s := npSort a with hs
  have hmem : ∀ x ∈ s, 0 ≤ x := fun x hx => hpos x (npSort_mem hx)
  have hn : 1 ≤ s.length := by
    rw [hs, npSort_length]
    cases a with
    | nil => exact absurd rfl ha
    | cons b bs => simp
  set h := ((s.length : ℚ) - 1) * q / 100 with hh
  have hh0 : 0 ≤ h := by
    apply div_nonneg _ (by norm_num)
    apply mul_nonneg _ hq0
    have h1 : (1 : ℚ) ≤ (s.length : ℚ) := by exact_mod_cast hn
    linarith
  have hfl0 : (0 : ℤ) ≤ ⌊h⌋ := Int.floor_nonneg.mpr hh0
  have hcast : ((⌊h⌋.toNat : ℚ)) = ((⌊h⌋ : ℤ) : ℚ) := by
    exact_mod_cast Int.toNat_of_nonneg hfl0
  have ht0 : 0 ≤ h - ((⌊h⌋.toNat : Nat) : ℚ) := by
    rw [hcast]
    exact sub_nonneg.mpr (Int.floor_le h)
  have ht1 : h - ((⌊h⌋.toNat : Nat) : ℚ) ≤ 1 := by
    rw [hcast]
    have := Int.lt_floor_add_one h
    push_cast
    linarith
  have hgetD : ∀ (i : Nat), 0 ≤ s.getD i 0 := by
    intro i
    by_cases hlt : i < s.length
    · rw [List.getD_eq_getElem s 0 hlt]
      exact hmem _ (s.getElem_mem hlt)
    · rw [List.getD_eq_default s 0 (le_of_not_lt hlt)]
  have hs0 := hgetD (⌊h⌋.toNat)
  have hs1 := hgetD (min ((⌊h⌋.toNat) + 1) (s.length - 1))
  nlinarith [mul_nonneg ht0 hs1, mul_nonneg (sub_nonneg.mpr ht1) hs0]

/-- A successful match of the metric pattern at offset `i` pins down the
line's characters over the whole literal prefix. -/
theorem medianAEMatchAt_getElem {cs : List Char} {i : Nat}
    (h : medianAEMatchAt cs i = true) :
    ∀ j, j < medianAEPrefix.length → cs[i + j]? = medianAEPrefix[j]? := by
  intro j hj
  have hpre : medianAEPrefix.isPrefixOf (cs.drop i) = true :=
    (Bool.and_eq_true _ _).mp h |>.1
  obtain ⟨t, ht⟩ := List.isPrefixOf_iff_prefix.mp hpre
  rw [← List.getElem?_drop, ← ht, List.getElem?_append_left hj]

/-- The median pattern matches nowhere in a percentile line for a different
`q`: such a line is a 23-character prefix that differs from the median
prefix at index 6 (the first digit of `q`), has its only `A` at index 0, and
continues with number characters only. -/
theorem matchesMedianAERegex_eq_false (pother : List Char) (v : ℚ)
    (hlen : pother.length = 23)
    (h6 : pother[6]? ≠ some ('5' : Char))
    (hA : ('A' : Char) ∉ pother.drop 1) :
    matchesMedianAERegex (pother ++ pyFloatStr v) = false := by
  rw [matchesMedianAERegex, List.any_eq_false]
  intro i _hi
  simp only [Bool.not_eq_true]
  by_contra hmatch
  rw [Bool.not_eq_false] at hmatch
  have hget := medianAEMatchAt_getElem hmatch
  have h0 : (pother ++ pyFloatStr v)[i]? = some 'A' := by
    have h00 := hget 0 (by decide)
    rw [Nat.add_zero] at h00
    rw [h00]
    rfl
  rcases Nat.eq_zero_or_pos i with hi0 | hipos
  · subst hi0
    have h6' := hget 6 (by decide)
    rw [Nat.zero_add, List.getElem?_append_left (by omega)] at h6'
    apply h6
    rw [h6']
    rfl
  · by_cases hlt : i < pother.length
    · rw [List.getElem?_append_left hlt] at h0
      have hdrop : (pother.drop 1)[i - 1]? = some 'A' := by
        rw [List.getElem?_drop]
        have h1i : 1 + (i - 1) = i := by omega
        rw [h1i, h0]
      exact hA (List.getElem?_mem hdrop)
    · rw [List.getElem?_append_right (le_of_not_lt hlt)] at h0
      have hmem := List.getElem?_mem h0
      rcases pyFloatStr_chars v 'A' hmem with hd | hdot | hdash
      · exact absurd hd (by decide)
      · exact absurd hdot (by decide)
      · exact absurd hdash (by decide)

/-- The median pattern does match the `q = 50` line (at its start). -/
theorem matchesMedianAERegex_median (v : ℚ) (hv : 0 ≤ v) :
    matchesMedianAERegex (medianAEPrefix ++ pyFloatStr v) = true := by
  rw [matchesMedianAERegex, List.any_eq_true]
  refine ⟨0, List.mem_range.mpr (by omega), ?_⟩
  rw [medianAEMatchAt, List.drop_zero]
  apply (Bool.and_eq_true _ _).mpr
  constructor
  · rw [List.isPrefixOf_iff_prefix]
    exact List.prefix_append _ _
  · rw [List.drop_left]
    obtain ⟨c, cs, hcs, hd⟩ := pyFloatStr_head_digit v hv
    rw [hcs]
    simp [hd]

/-- The three printed lines, unfolded. -/
theorem aeLine_fifty (v : ℚ) : aeLine 50 v = medianAEPrefix ++ pyFloatStr v := rfl

theorem aeLine_ten (v : ℚ) :
    aeLine 10 v = "AE-at-10th-percentile: ".toList ++ pyFloatStr v := rfl

theorem aeLine_ninety (v : ℚ) :
    aeLine 90 v = "AE-at-90th-percentile: ".toList ++ pyFloatStr v := rfl

/-- The loop over `[10, 50, 90]`, unrolled. -/
theorem percentileLines_eq (absErr : List ℚ) :
    percentileLines absErr = [aeLine 10 (npPercentile absErr 10),
      aeLine 50 (npPercentile absErr 50), aeLine 90 (npPercentile absErr 90)] := by
  simp [percentileLines]

/-- The `q = 50` line carries the literal prefix. -/
theorem median_isPrefixOf_fifty (v : ℚ) :
    medianAEPrefix.isPrefixOf (aeLine 50 v) = true := by
  rw [aeLine_fifty, List.isPrefixOf_iff_prefix]
  exact List.prefix_append _ _

/-- A percentile line for a different `q` does not carry the literal
prefix. -/
theorem median_not_isPrefixOf_other (pother : List Char) (v : ℚ)
    (h6 : pother[6]? ≠ some ('5' : Char)) (hlen : 6 < pother.length) :
    medianAEPrefix.isPrefixOf (pother ++ pyFloatStr v) = false := by
  by_contra h
  rw [Bool.not_eq_false] at h
  obtain ⟨t, ht⟩ := List.isPrefixOf_iff_prefix.mp h
  have h6' : (pother ++ pyFloatStr v)[6]? = medianAEPrefix[6]? := by
    rw [← ht, List.getElem?_append_left (by decide)]
  rw [List.getElem?_append_left hlen] at h6'
  apply h6
  rw [h6']
  rfl

/-- A successful run's absolute-error list is nonempty and nonnegative. -/
theorem mainRun_ok_absErr {lib : SklearnLib} {env : String → Option String}
    {argv : List String} {fs fs' : JoblibFS} {absErr : List ℚ}
    (hrun : mainRun lib env argv fs = .ok (fs', absErr)) :
    absErr ≠ [] ∧ ∀ x ∈ absErr, 0 ≤ x := by
  rw [mainRun] at hrun
  rw [except_bind_eq_ok] at hrun
  obtain ⟨⟨args, unknown⟩, _hargs, hrun⟩ := hrun
  rw [except_bind_eq_ok] at hrun
  obtain ⟨td, _htd, hrun⟩ := hrun
  rw [except_bind_eq_ok] at hrun
  obtain ⟨df₁, _hr₁, hrun⟩ := hrun
  rw [except_bind_eq_ok] at hrun
  obtain ⟨te, _hte, hrun⟩ := hrun
  rw [except_bind_eq_ok] at hrun
  obtain ⟨df₂, _hr₂, hrun⟩ := hrun
  rw [except_bind_eq_ok] at hrun
  obtain ⟨feats, _hf, hrun⟩ := hrun
  rw [except_bind_eq_ok] at hrun
  obtain ⟨X₁, _hs₁, hrun⟩ := hrun
  rw [except_bind_eq_ok] at hrun
  obtain ⟨X₂, _hs₂, hrun⟩ := hrun
  rw [except_bind_eq_ok] at hrun
  obtain ⟨y₁, _hc₁, hrun⟩ := hrun
  rw [except_bind_eq_ok] at hrun
  obtain ⟨y₂, _hc₂, hrun⟩ := hrun
  rw [except_bind_eq_ok] at hrun
  obtain ⟨model, _hfit, hrun⟩ := hrun
  by_cases hemp :
      ((List.zip (model.predict X₂) y₂).map (fun p => |p.1 - p.2|)).isEmpty
  · rw [if_pos hemp] at hrun
    exact absurd hrun (by simp)
  · rw [if_neg hemp] at hrun
    rw [except_bind_eq_ok] at hrun
    obtain ⟨md, _hmd, hrun⟩ := hrun
    have habs :
        (List.zip (model.predict X₂) y₂).map (fun p => |p.1 - p.2|) = absErr :=
      congrArg Prod.snd (Except.ok.inj hrun)
    constructor
    · rw [← habs]
      intro hnil
      rw [hnil] at hemp
      exact hemp rfl
    · rw [← habs]
      intro x hx
      obtain ⟨p, _, hp⟩ := List.mem_map.mp hx
      rw [← hp]
      exact abs_nonneg _

/-- **C10.** Every successful run of the training script prints exactly one
line carrying the literal `AE-at-50th-percentile: ` prefix (among the
`q ∈ [10, 50, 90]` percentile lines), and exactly one line matching the
estimator's `metric_definitions` regex `AE-at-50th-percentile: ([0-9.]+).*$`
under regex-search semantics — so the median-AE metric is always captured. -/
theorem C10_exactly_one_median_metric_line (lib : SklearnLib)
    (env : String → Option String) (argv : List String) (fs fs' : JoblibFS)
    (absErr : List ℚ) (hrun : mainRun lib env argv fs = .ok (fs', absErr)) :
    (percentileLines absErr).countP
        (fun l => medianAEPrefix.isPrefixOf l) = 1 ∧
    (percentileLines absErr).countP matchesMedianAERegex = 1 := by
  obtain ⟨hne, hnn⟩ := mainRun_ok_absErr hrun
  have h50 : 0 ≤ npPercentile absErr 50 :=
    npPercentile_nonneg absErr 50 hne hnn (by norm_num) (by norm_num)
  have hp10 : medianAEPrefix.isPrefixOf (aeLine 10 (npPercentile absErr 10)) = false :=
    median_not_isPrefixOf_other ("AE-at-10th-percentile: ".toList)
      (npPercentile absErr 10) (by decide) (by decide)
  have hp90 : medianAEPrefix.isPrefixOf (aeLine 90 (npPercentile absErr 90)) = false :=
    median_not_isPrefixOf_other ("AE-at-90th-percentile: ".toList)
      (npPercentile absErr 90) (by decide) (by decide)
  have hp50 := median_isPrefixOf_fifty (npPercentile absErr 50)
  have hr10 : matchesMedianAERegex (aeLine 10 (npPercentile absErr 10)) = false :=
    matchesMedianAERegex_eq_false ("AE-at-10th-percentile: ".toList)
      (npPercentile absErr 10) (by decide) (by decide) (by decide)
  have hr90 : matchesMedianAERegex (aeLine 90 (npPercentile absErr 90)) = false :=
    matchesMedianAERegex_eq_false ("AE-at-90th-percentile: ".toList)
      (npPercentile absErr 90) (by decide) (by decide) (by decide)
  have hr50 : matchesMedianAERegex (aeLine 50 (npPercentile absErr 50)) = true :=
    matchesMedianAERegex_median (npPercentile absErr 50) h50
  have hlines := percentileLines_eq absErr
  constructor
  · rw [hlines]
    simp [List.countP_cons, hp10, hp50, hp90]
  · rw [hlines]
    simp [List.countP_cons, hr10, hr50, hr90]

/-- Witness for C10: the fixture run prints its median-AE line and the
scraper captures it. -/
theorem C10_exactly_one_median_metric_line_witness :
    mainRun libOk envNone argvLocal [] =
      .ok ([("model/model.joblib",
             { n_estimators := 10, min_samples_leaf := 3,
               predict := fun rows => rows.map (fun _ => 0) })], [10, 20]) ∧
    (percentileLines [10, 20]).countP
        (fun l => medianAEPrefix.isPrefixOf l) = 1 ∧
    (percentileLines [10, 20]).countP matchesMedianAERegex = 1 :=
  ⟨mainRun_fixture_eval,
   (C10_exactly_one_median_metric_line libOk envNone argvLocal [] _ [10, 20]
      mainRun_fixture_eval).1,
   (C10_exactly_one_median_metric_line libOk envNone argvLocal [] _ [10, 20]
      mainRun_fixture_eval).2⟩

/-! ## Keras headline classifier: tokenizer, `pad_sequences`, `classify` (C5)

From the Keras local notebook's `classify`:

    encoded_example = tokenizer.texts_to_sequences([text])
    max_length = 40
    padded_example = pad_sequences(encoded_example, maxlen=max_length, padding="post")
    result = model.predict(padded_example)
-/

/-- Keras `Tokenizer` state as used by `texts_to_sequences`: the learnt
word→index mapping (out-of-vocabulary words are dropped, as with the
notebook's `Tokenizer` built without `oov_token`). -/
structure KTokenizer where
  word_index : String → Option Nat

/-- Keras `text_to_word_sequence` as applied inside `texts_to_sequences`
(the notebook keeps the default filters; the model abstracts them as
whitespace splitting — the padding theorems below hold for every encoded
sequence). -/
def textToWords (t : String) : List String := pyStrSplit t

/-- `tokenizer.texts_to_sequences(texts)`. -/
def textsToSequences (tk : KTokenizer) (texts : List String) : List (List Nat) :=
  texts.map (fun t => (textToWords t).filterMap tk.word_index)

/-- Keras `pad_sequences(seqs, maxlen, padding="post")` with the default
`truncating="pre"`: a longer sequence keeps its last `maxlen` entries, a
shorter one is padded with the default value `0` at the end. -/
def padSequencesPost (seqs : List (List Nat)) (maxlen : Nat) : List (List Nat) :=
  seqs.map (fun s =>
    let t := if maxlen < s.length then s.drop (s.length - maxlen) else s
    t ++ List.replicate (maxlen - t.length) 0)

/-- `max_length = 40` inside `classify`. -/
def classifyMaxLength : Nat := 40

/-- The preprocessing of the Keras notebook's `classify(text)`: encode the
singleton batch and pad to length 40 with `padding="post"`; the result is
exactly what `model.predict` receives. -/
def classifyPadded (tk : KTokenizer) (text : String) : List (List Nat) :=
  padSequencesPost (textsToSequences tk [text]) classifyMaxLength

/-- Every row produced by `pad_sequences(..., maxlen, padding="post")` has
length exactly `maxlen`. -/
theorem padSequencesPost_length (seqs : List (List Nat)) (maxlen : Nat) :
    ∀ s ∈ padSequencesPost seqs maxlen, s.length = maxlen := by
  intro s hs
  rw [padSequencesPost] at hs
  obtain ⟨u, _hu, hmap⟩ := List.mem_map.mp hs
  by_cases hlen : maxlen < u.length
  · rw [← hmap]
    simp only [hlen, if_true, List.length_append, List.length_drop,
      List.length_replicate]
    omega
  · rw [← hmap]
    simp only [hlen, if_false, List.length_append, List.length_replicate]
    omega

/-- **C5.** The tokenizer produces fixed-length padded sequences: for every
input text given to the headline classifier's `classify` (whether the
encoded token sequence is shorter or longer than 40), the padded batch fed
to the model is a single sequence of length exactly 40, with post-padding
(zeros appended) applied to shorter sequences. -/
theorem C5_classify_pads_to_forty (tk : KTokenizer) (text : String) :
    (classifyPadded tk text).length = 1 ∧
    (∀ s ∈ classifyPadded tk text, s.length = 40) ∧
    (((textToWords text).filterMap tk.word_index).length ≤ 40 →
      classifyPadded tk text =
        [(textToWords text).filterMap tk.word_index ++
          List.replicate (40 - ((textToWords text).filterMap tk.word_index).length) 0]) := by
  refine ⟨rfl, padSequencesPost_length _ _, ?_⟩
  intro hle
  rw [classifyPadded, textsToSequences, padSequencesPost]
  simp only [List.map_cons, List.map_nil]
  rw [if_neg (by rw [classifyMaxLength]; omega)]
  rfl

/-- Witness for C5 at a concrete tokenizer and headline. -/
theorem C5_classify_pads_to_forty_witness :
    (classifyPadded ⟨fun w => if w = "markets" then some 7 else none⟩
        "the markets were bullish").length = 1 ∧
    (((textToWords "the markets were bullish").filterMap
        (fun w => if w = "markets" then some 7 else none)).length ≤ 40 ∧
      classifyPadded ⟨fun w => if w = "markets" then some 7 else none⟩
          "the markets were bullish" = [7 :: List.replicate 39 0]) := by
  refine ⟨(C5_classify_pads_to_forty _ _).1, by decide, ?_⟩
  have h := (C5_classify_pads_to_forty
    ⟨fun w => if w = "markets" then some 7 else none⟩
    "the markets were bullish").2.2 (by decide)
  rw [h]
  decide

/-! ## Embedding matrix and model construction (C6)

The PyTorch notebook's `train` builds
`Net(vocab_size=embedding_matrix.shape[0], emb_dim=embedding_matrix.shape[1],
num_classes=num_classes)` and replaces the embedding weight with the matrix;
the Keras notebook builds
`Embedding(embedding_matrix.shape[0], embedding_matrix.shape[1],
weights=[embedding_matrix], input_length=40, trainable=False)`. -/

/-- `m.shape[0]` of the 2-D embedding array. -/
def shape0 (m : List (List ℚ)) : Nat := m.length

/-- `m.shape[1]` of the 2-D (rectangular) embedding array. -/
def shape1 (m : List (List ℚ)) : Nat := (m.headD []).length

/-- `torch.nn.Embedding(num_embeddings, embedding_dim)` state. -/
structure TorchEmbedding where
  num_embeddings : Nat
  embedding_dim : Nat
  weight : List (List ℚ)

/-- An embedding lookup: defined exactly for indices with a weight row. -/
def TorchEmbedding.lookup (e : TorchEmbedding) (i : Nat) : Option (List ℚ) :=
  e.weight[i]?

/-- The layer dimensions fixed by `Net.__init__` of the PyTorch notebook. -/
structure Net where
  embedding : TorchEmbedding
  conv1_in : Nat
  conv1_out : Nat
  conv1_kernel : Nat
  fc1_in : Nat
  fc1_out : Nat
  fc2_in : Nat
  fc2_out : Nat

/-- `Net(vocab_size, emb_dim, num_classes)`: `nn.Embedding(vocab_size,
emb_dim)` (the random initial weight abstracted as a zero matrix of the
declared shape), `nn.Conv1d(emb_dim, 128, kernel_size=3)`,
`nn.Linear(896, 128)`, `nn.Linear(128, num_classes)`. -/
def NetInit (vocab_size emb_dim num_classes : Nat) : Net where
  embedding :=
    { num_embeddings := vocab_size, embedding_dim := emb_dim,
      weight := List.replicate vocab_size (List.replicate emb_dim 0) }
  conv1_in := emb_dim
  conv1_out := 128
  conv1_kernel := 3
  fc1_in := 896
  fc1_out := 128
  fc2_in := 128
  fc2_out := num_classes

/-- The `train` function's model construction:
`Net(vocab_size=embedding_matrix.shape[0], emb_dim=embedding_matrix.shape[1],
num_classes=num_classes)` followed by
`model.embedding.weight = torch.nn.parameter.Parameter(FloatTensor(embedding_matrix), False)`. -/
def trainBuildModel (embedding_matrix : List (List ℚ)) (num_classes : Nat) :
    Net :=
  let model := NetInit (shape0 embedding_matrix) (shape1 embedding_matrix)
    num_classes
  { model with
    embedding := { model.embedding with weight := embedding_matrix } }

/-- The Keras `Embedding` layer configuration. -/
structure KerasEmbedding where
  input_dim : Nat
  output_dim : Nat
  weights : List (List ℚ)
  input_length : Nat
  trainable : Bool

/-- `Embedding(embedding_matrix.shape[0], embedding_matrix.shape[1],
weights=[embedding_matrix], input_length=40, trainable=False)`. -/
def kerasEmbeddingLayer (embedding_matrix : List (List ℚ)) : KerasEmbedding where
  input_dim := shape0 embedding_matrix
  output_dim := shape1 embedding_matrix
  weights := embedding_matrix
  input_length := 40
  trainable := false

/-- A Keras embedding lookup into the layer's weight matrix. -/
def KerasEmbedding.lookup (e : KerasEmbedding) (i : Nat) : Option (List ℚ) :=
  e.weights[i]?

/-- **C6.** The models are constructed consistently with the
vocabulary-size × dimension embedding matrix: the PyTorch `Net` is built with
`vocab_size = shape[0]` and `emb_dim = shape[1]` (and carries the matrix as
its weight), the Keras `Embedding` layer uses `shape[0]` and `shape[1]` as
its size arguments with `weights=[embedding_matrix]` — hence every token
index smaller than the vocabulary size is a valid embedding-lookup index in
both models. -/
theorem C6_embedding_shapes_consistent (em : List (List ℚ)) (nc : Nat)
    (i : Nat) (hi : i < shape0 em) :
    (trainBuildModel em nc).embedding.num_embeddings = shape0 em ∧
    (trainBuildModel em nc).embedding.embedding_dim = shape1 em ∧
    (trainBuildModel em nc).embedding.weight = em ∧
    (kerasEmbeddingLayer em).input_dim = shape0 em ∧
    (kerasEmbeddingLayer em).output_dim = shape1 em ∧
    (kerasEmbeddingLayer em).weights = em ∧
    ((trainBuildModel em nc).embedding.lookup i).isSome = true ∧
    ((kerasEmbeddingLayer em).lookup i).isSome = true := by
  refine ⟨rfl, rfl, rfl, rfl, rfl, rfl, ?_, ?_⟩
  · rw [show (trainBuildModel em nc).embedding.lookup i = em[i]? from rfl,
      List.getElem?_eq_getElem hi]
    rfl
  · rw [show (kerasEmbeddingLayer em).lookup i = em[i]? from rfl,
      List.getElem?_eq_getElem hi]
    rfl

/-- Witness for C6 on a concrete 2 × 2 embedding matrix. -/
theorem C6_embedding_shapes_consistent_witness :
    (1 < shape0 [[1, 0], [0, 1]]) ∧
    ((trainBuildModel [[1, 0], [0, 1]] 4).embedding.num_embeddings =
      shape0 [[1, 0], [0, 1]]) ∧
    ((trainBuildModel [[1, 0], [0, 1]] 4).embedding.lookup 1).isSome = true ∧
    ((kerasEmbeddingLayer [[1, 0], [0, 1]]).lookup 1).isSome = true := by
  have h := C6_embedding_shapes_consistent [[1, 0], [0, 1]] 4 1 (by decide)
  exact ⟨by decide, h.1, h.2.2.2.2.2.2.1, h.2.2.2.2.2.2.2⟩

/-! ## Headline-classifier notebooks: the tokenizer is built once (C7)

`util/preprocessing.py` (defining `tokenize_and_pad_docs` and
`get_word_embeddings`) is not among the provided sources, so those two
helpers are modelled from the spec; the cell sequence itself is the one of
the PyTorch local notebook. -/

/-- The tokenizer state built by `tokenize_and_pad_docs`: the vocabulary
mapping word→index reused for padding and embedding lookups. -/
structure TTokenizer where
  stoi : List (String × Nat)

/-- The vocabulary of the document collection, indexed by first
occurrence. -/
def buildVocab (titles : List String) : List (String × Nat) :=
  ((titles.map pyStrSplit).join.eraseDups).enum.map (fun p => (p.2, p.1))

/-- Modelled from the spec: `tokenize_and_pad_docs(df, "TITLE")` builds the
tokenizer state once (vocabulary mapping word→index) and returns the encoded
documents together with that tokenizer; `util/preprocessing.py` is missing
from the sources. -/
def tokenize_and_pad_docs (titles : List String) :
    List (List Nat) × TTokenizer :=
  let tk : TTokenizer := { stoi := buildVocab titles }
  (titles.map (fun t => (pyStrSplit t).map (fun w => (tk.stoi.lookup w).getD 0)),
   tk)

/-- Modelled from the spec: `get_word_embeddings(tokenizer, dir)` produces
the vocabulary-size × dimension matrix from pretrained vectors (`vectors`),
reading — not modifying — the tokenizer's vocabulary;
`util/preprocessing.py` is missing from the sources. -/
def get_word_embeddings (vectors : String → List ℚ) (tk : TTokenizer) :
    List (List ℚ) :=
  tk.stoi.map (fun p => vectors p.1)

/-- The tokenizer accesses of the PyTorch notebook's `classify(text)`
(`tokenizer.preprocess`, `tokenizer.pad`, `tokenizer.vocab.stoi`): every
lookup goes through the tokenizer value in scope. -/
def classifyIndices (tk : TTokenizer) (text : String) : List Nat :=
  (pyStrSplit text).map (fun w => (tk.stoi.lookup w).getD 0)

/-- One execution state of the notebook: the tokenizer in scope, and how
many tokenizer constructions have been performed. -/
structure NotebookState where
  tokenizer : Option TTokenizer
  tokenizer_builds : Nat

/-- Cell `processed_docs, tokenizer = util.preprocessing.tokenize_and_pad_docs(df, "TITLE")`. -/
def cellTokenize (titles : List String) (s : NotebookState) :
    List (List Nat) × NotebookState :=
  let r := tokenize_and_pad_docs titles
  (r.1, { tokenizer := some r.2, tokenizer_builds := s.tokenizer_builds + 1 })

/-- Cell `embedding_matrix = util.preprocessing.get_word_embeddings(tokenizer, "data/embeddings")`:
reads the tokenizer in scope and leaves the state unchanged. -/
def cellEmbeddings (vectors : String → List ℚ) (s : NotebookState) :
    List (List ℚ) × NotebookState :=
  (match s.tokenizer with
   | some tk => get_word_embeddings vectors tk
   | none => [],
   s)

/-- The `classify` cell: reads the tokenizer in scope and leaves the state
unchanged. -/
def cellClassify (text : String) (s : NotebookState) :
    List Nat × NotebookState :=
  (match s.tokenizer with
   | some tk => classifyIndices tk text
   | none => [],
   s)

/-- The notebook's tokenizer lifecycle: build once
(`tokenize_and_pad_docs`), reuse for `get_word_embeddings`, reuse for
`classify`. -/
def notebookRun (titles : List String) (vectors : String → List ℚ)
    (text : String) : NotebookState :=
  let s₀ : NotebookState := { tokenizer := none, tokenizer_builds := 0 }
  let r₁ := cellTokenize titles s₀
  let r₂ := cellEmbeddings vectors r₁.2
  let r₃ := cellClassify text r₂.2
  r₃.2

/-- **C7.** The tokenizer state is built once and reused without
rebuilding: after the notebook's cell sequence exactly one tokenizer has
been constructed, the tokenizer in scope at `classify` is the very value
returned by `tokenize_and_pad_docs`, and neither `get_word_embeddings` nor
`classify` changes the tokenizer (in particular the word→index mapping) in
the notebook state. -/
theorem C7_tokenizer_built_once_and_reused (titles : List String)
    (vectors : String → List ℚ) (text : String) :
    (notebookRun titles vectors text).tokenizer_builds = 1 ∧
    (notebookRun titles vectors text).tokenizer =
      some (tokenize_and_pad_docs titles).2 ∧
    (∀ s : NotebookState, (cellEmbeddings vectors s).2 = s) ∧
    (∀ s : NotebookState, (cellClassify text s).2 = s) :=
  ⟨rfl, rfl, fun _ => rfl, fun _ => rfl⟩

end SM101
